import Mathlib

/-!
Verification of the StyleForge asynchronous job pipeline.

Shallow embedding of `apps/api/app` (job record store, worker task,
generator strategies) as executable Lean definitions, followed by theorems
about the embedded code.

Conventions used throughout:
* Python `datetime.utcnow()` timestamps are abstracted as `Nat` instants
  supplied by the caller / threaded as a counter.
* Python floats that only parameterize external image operations
  (overlay opacity, contrast, saturation) are stored scaled by 100 as `Nat`
  (e.g. `1.2` becomes `120`); comparisons like `contrast != 1.0` become
  `contrast ≠ 100`, which is exact for the literals in the source.
* Float arithmetic that feeds back into the control flow (the resize-ratio
  computations) is modelled as exact rational arithmetic with `Int.floor`
  for Python `int(...)` truncation of a non-negative value.
* Calls into external libraries (PIL, httpx, replicate) are modelled as
  fields of an explicit environment record: deterministic uninterpreted
  operations, since the spec excludes pixel-level algorithms.
* Exceptions are modelled with `Except` over an error type `PyErr`;
  progress callbacks are modelled as event traces (`List Int` of reported
  values) rather than function calls.
-/

namespace StyleForge

/-- The `JobStatus` enum from `app/models.py`. -/
inductive JobStatus where
  | pending
  | processing
  | completed
  | failed
deriving DecidableEq, Repr

/-- The `JobMetadata` model from `app/models.py`: the job record persisted as a
JSON file by `JobService`. Timestamps are abstract `Nat` instants. -/
structure JobMetadata where
  job_id : String
  status : JobStatus
  progress : Int
  style_id : String
  input_filename : String
  output_filename : Option String
  error : Option String
  created_at : Nat
  updated_at : Nat
deriving DecidableEq, Repr

/-- The job record store keyed by `job_id` (the metadata directory of JSON
files managed by `JobService._save_metadata` / `_load_metadata`). -/
def JobStore : Type := String → Option JobMetadata

/-- Model of `JobService._save_metadata`: writes the record at its `job_id` key,
unconditionally overwriting whatever was there (the file is opened with
mode `w`). -/
def save_metadata (store : JobStore) (md : JobMetadata) : JobStore :=
  fun id => if id = md.job_id then some md else store id

/-- Model of `JobService.create_job`: builds a fresh Pending record and saves it.
The source performs no existence check before `_save_metadata`. -/
def create_job (store : JobStore) (job_id style_id input_filename : String)
    (now : Nat) : JobStore :=
  save_metadata store
    { job_id := job_id
      status := .pending
      progress := 0
      style_id := style_id
      input_filename := input_filename
      output_filename := none
      error := none
      created_at := now
      updated_at := now }

/-- Model of `JobService.update_job` acting on the loaded record: `None` when the
record does not exist; otherwise each supplied field replaces the stored
one, the others are kept, and `updated_at` is stamped with the current
instant. No status/terminality check is performed. -/
def update_job (m : Option JobMetadata) (status : Option JobStatus)
    (progress : Option Int) (output_filename : Option String)
    (error : Option String) (now : Nat) : Option JobMetadata :=
  match m with
  | none => none
  | some md =>
      some { md with
        status := status.getD md.status
        progress := progress.getD md.progress
        output_filename :=
          match output_filename with
          | some v => some v
          | none => md.output_filename
        error :=
          match error with
          | some v => some v
          | none => md.error
        updated_at := now }

/-- Outcome of the worker's `generator.generate(...)` call in
`app/workers/tasks.py::process_image`, abstracting the generator run:
the list of progress values delivered to the `on_progress` callback before
the call resolves, and how it resolves (normal return, `GenerationError`,
or any other exception with message `msg`). -/
inductive GenOutcome where
  | success (ups : List Int)
  | genError (ups : List Int) (msg : String)
  | otherError (ups : List Int) (msg : String)
deriving DecidableEq, Repr

/-- Progress values of an outcome. -/
def GenOutcome.ups : GenOutcome → List Int
  | .success u => u
  | .genError u _ => u
  | .otherError u _ => u

/-- Terminal status `process_image` writes for an outcome. -/
def GenOutcome.finalStatus : GenOutcome → JobStatus
  | .success _ => .completed
  | .genError _ _ => .failed
  | .otherError _ _ => .failed

/-- The worker's `on_progress` callback applied repeatedly:
each reported value performs one `update_job(job_id, progress=progress)`
write (`tasks.py` lines 76-77). Returns the final record together with the
next timestamp. -/
def runProgress (m : Option JobMetadata) (t : Nat) (ups : List Int) :
    Option JobMetadata × Nat :=
  match ups with
  | [] => (m, t)
  | p :: rest => runProgress (update_job m none (some p) none none t) (t + 1) rest

/-- Last element of a progress list, with default `d` when empty. -/
def lastD : List Int → Int → Int
  | [], d => d
  | p :: rest, _ => lastD rest p

/-- Model of `process_image(job_id)` from `app/workers/tasks.py`, restricted to its
effect on the job's record. A missing record aborts with no write. An
existing record first receives `status=PROCESSING, progress=5`; then the
generator's callback writes each reported progress value; finally the
terminal write is `status=COMPLETED, progress=100,
output_filename=f"{job_id}-output.png"` on success, or `status=FAILED`
with the error message (prefixed `"Processing failed: "` for non-
`GenerationError` exceptions) and no progress argument on failure.
Timestamps are threaded as successive instants `1, 2, ...`. -/
def process_image (m0 : Option JobMetadata) (outcome : GenOutcome) :
    Option JobMetadata :=
  match m0 with
  | none => none
  | some md =>
      let m1 := update_job (some md) (some .processing) (some 5) none none 1
      let r := runProgress m1 2 outcome.ups
      match outcome with
      | .success _ =>
          update_job r.1 (some .completed) (some 100)
            (some (md.job_id ++ "-output.png")) none r.2
      | .genError _ msg =>
          update_job r.1 (some .failed) none none (some msg) r.2
      | .otherError _ msg =>
          update_job r.1 (some .failed) none none
            (some ("Processing failed: " ++ msg)) r.2

/-- States of the job record after each successive write of the progress
callback (for the status-trace invariant). -/
def runProgressTrace (m : Option JobMetadata) (t : Nat) (ups : List Int) :
    List (Option JobMetadata) :=
  match ups with
  | [] => []
  | p :: rest =>
      let m' := update_job m none (some p) none none t
      m' :: runProgressTrace m' (t + 1) rest

/-- States of the job record after each write performed by one
`process_image` execution, in order: the Processing transition, each
progress write, the terminal write. -/
def process_image_trace (m0 : Option JobMetadata) (outcome : GenOutcome) :
    List (Option JobMetadata) :=
  match m0 with
  | none => []
  | some md =>
      let m1 := update_job (some md) (some .processing) (some 5) none none 1
      m1 :: (runProgressTrace m1 2 outcome.ups ++ [process_image (some md) outcome])

/-! ## Generator base (`app/generators/base.py`) -/

/-- Abstract file system seen by the generators: existence, regular-file
test, and abstract byte content of each path. -/
structure FS where
  fileExists : String → Bool
  isFile : String → Bool
  content : String → Nat

/-- Python exceptions relevant to the generator code paths. -/
inductive PyErr where
  | fileNotFound (msg : String)
  | valueError (msg : String)
  | generationError (msg : String) (cause : Option PyErr)
  | httpStatusError (code : Nat)
  | timeoutError

/-- Rendering of `str(e)` for the modelled exceptions. Library exception texts
(`httpx.HTTPStatusError`, `httpx.TimeoutException`) are abstracted to
fixed renderings; for the repository's own exception classes the message
is exactly the constructor argument. -/
def PyErr.str : PyErr → String
  | .fileNotFound m => m
  | .valueError m => m
  | .generationError m _ => m
  | .httpStatusError code => "HTTP status error " ++ toString code
  | .timeoutError => "request timed out"

/-- Model of `ImageGenerator.validate_input`: `FileNotFoundError` when the path
does not exist, `ValueError` when it exists but is not a regular file. -/
def validate_input (fs : FS) (input_path : String) : Except PyErr Unit :=
  if !(fs.fileExists input_path) then
    .error (.fileNotFound ("Input file not found: " ++ input_path))
  else if !(fs.isFile input_path) then
    .error (.valueError ("Input path is not a file: " ++ input_path))
  else
    .ok ()

/-- The clamp `min(max(progress, 0), 100)` applied by
`ImageGenerator.report_progress` before invoking the callback. -/
def clamp (p : Int) : Int := min (max p 0) 100

/-- Model of `ImageGenerator.report_progress` as an event trace: when a callback is
provided (`cb = true`) it is invoked once with the clamped value, otherwise
not at all. -/
def report_progress (p : Int) (cb : Bool) : List Int :=
  if cb then [clamp p] else []

/-- The `StylePreset` model from `app/models.py`. -/
structure StylePreset where
  id : String
  name : String
  description : String
  prompt : String
  thumbnail : Option String
deriving DecidableEq, Repr

/-! ## Stub generator (`app/generators/stub.py`) -/

/-- One entry of `STYLE_EFFECTS` / `DEFAULT_EFFECT`. The float fields
`overlay_opacity`, `contrast`, `saturation` are stored scaled by 100. -/
structure StyleEffect where
  overlay_color : Nat × Nat × Nat
  overlay_opacity : Nat
  contrast : Nat
  saturation : Nat
  label_color : Nat × Nat × Nat
deriving DecidableEq, Repr

/-- The `STYLE_EFFECTS` table from `stub.py` (floats stored ×100). -/
def STYLE_EFFECTS : List (String × StyleEffect) :=
  [ ("classic-tuxedo",
      { overlay_color := (20, 20, 30), overlay_opacity := 15,
        contrast := 120, saturation := 80, label_color := (255, 215, 0) }),
    ("streetwear",
      { overlay_color := (255, 100, 50), overlay_opacity := 10,
        contrast := 115, saturation := 130, label_color := (255, 100, 50) }),
    ("techwear",
      { overlay_color := (30, 30, 35), overlay_opacity := 20,
        contrast := 130, saturation := 70, label_color := (100, 200, 255) }),
    ("old-money",
      { overlay_color := (180, 150, 100), overlay_opacity := 10,
        contrast := 110, saturation := 90, label_color := (180, 150, 100) }),
    ("minimalist",
      { overlay_color := (200, 200, 200), overlay_opacity := 15,
        contrast := 110, saturation := 50, label_color := (150, 150, 150) }),
    ("cyberpunk",
      { overlay_color := (255, 0, 150), overlay_opacity := 15,
        contrast := 140, saturation := 150, label_color := (255, 0, 255) }),
    ("crypto-bro",
      { overlay_color := (0, 200, 100), overlay_opacity := 10,
        contrast := 120, saturation := 110, label_color := (0, 255, 100) }) ]

/-- The `DEFAULT_EFFECT` table entry from `stub.py` (floats stored ×100). -/
def DEFAULT_EFFECT : StyleEffect :=
  { overlay_color := (128, 0, 255), overlay_opacity := 10,
    contrast := 110, saturation := 100, label_color := (128, 0, 255) }

/-- Model of `STYLE_EFFECTS.get(style.id, DEFAULT_EFFECT)` from `stub.py` line 99. -/
def styleEffectsGet (id : String) : StyleEffect :=
  ((STYLE_EFFECTS.lookup id).getD DEFAULT_EFFECT)

/-- Abstract PIL image: mode string plus abstract pixel content. -/
structure Image where
  mode : String
  data : Nat
deriving DecidableEq, Repr

/-- PIL operations used by `StubGenerator`, modelled as deterministic
uninterpreted operations of an environment (the spec excludes pixel-level
algorithms; only determinism and the call structure matter). `blend`
models `_apply_color_overlay` (new solid image + `Image.blend`),
`addLabel` models `_add_style_label` (font lookup, text box, composite)
applied to the style's display name and label colour. -/
structure PILEnv where
  decode : Nat → Image
  convert : Image → String → Image
  blend : Image → Nat × Nat × Nat → Nat → Image
  contrastEnhance : Image → Nat → Image
  colorEnhance : Image → Nat → Image
  addLabel : Image → String → Nat × Nat × Nat → Image
  encodePNG : Image → Nat

/-- Result of a stub run: abstract bytes written to `output_path`, the
trace of progress-callback invocations, and the sleeps performed. -/
structure StubResult where
  output : Nat
  reports : List Int
  sleeps : List ℚ
deriving DecidableEq, Repr

/-- The simulated-delay loop of `stub.py` lines 110-116: five sleeps of
`delay_seconds / 5`, each followed by reporting
`20 + int((i + 1) / steps * 50)`; for `steps = 5` the float expression is
exactly `(i + 1) * 10`. -/
def delaySteps (cb : Bool) : List Int :=
  ((List.range 5).map (fun i => report_progress (20 + ((i : Int) + 1) * 10) cb)).flatten

/-- Body of the `try` block of `StubGenerator.generate`. -/
def stub_generate_inner (env : PILEnv) (fs : FS) (input_path : String)
    (style : StylePreset) (simulate_delay : Bool) (delay_seconds : ℚ)
    (cb : Bool) : Except PyErr StubResult :=
  match validate_input fs input_path with
  | .error e => .error e
  | .ok _ =>
      let t1 := report_progress 10 cb
      let effects := styleEffectsGet style.id
      let img0 := env.decode (fs.content input_path)
      let img1 :=
        if img0.mode = "RGBA" ∨ img0.mode = "P" then env.convert img0 "RGB" else img0
      let t2 := report_progress 20 cb
      let tDelay := if simulate_delay then delaySteps cb else []
      let sleeps : List ℚ :=
        if simulate_delay then List.replicate 5 (delay_seconds / 5) else []
      let img2 := env.blend img1 effects.overlay_color effects.overlay_opacity
      let t3 := report_progress 75 cb
      let img3 :=
        if effects.contrast ≠ 100 then env.contrastEnhance img2 effects.contrast else img2
      let img4 :=
        if effects.saturation ≠ 100 then env.colorEnhance img3 effects.saturation else img3
      let t4 := report_progress 85 cb
      let img5 := env.addLabel img4 style.name effects.label_color
      let t5 := report_progress 95 cb
      let out := env.encodePNG img5
      let t6 := report_progress 100 cb
      .ok { output := out
            reports := t1 ++ t2 ++ tDelay ++ t3 ++ t4 ++ t5 ++ t6
            sleeps := sleeps }

/-- Model of `StubGenerator.generate`: the whole body runs inside
`try ... except Exception as e: raise GenerationError(f"Stub generation
failed: {str(e)}", cause=e)`, so every exception — including the
validation errors — is re-raised wrapped in a `GenerationError`. -/
def stub_generate (env : PILEnv) (fs : FS) (input_path : String)
    (style : StylePreset) (simulate_delay : Bool) (delay_seconds : ℚ)
    (cb : Bool) : Except PyErr StubResult :=
  match stub_generate_inner env fs input_path style simulate_delay delay_seconds cb with
  | .ok r => .ok r
  | .error e => .error (.generationError ("Stub generation failed: " ++ e.str) (some e))

/-! ## HuggingFace generator (`app/generators/huggingface.py`) -/

/-- Classification of one HTTP exchange in
`HuggingFaceGenerator._generate_with_text2img`, matching the branches of
the retry loop: 200 with image content; 503 model-loading with an
`estimated_time` hint; 429 rate-limit; any other response on which
`response.raise_for_status()` raises `httpx.HTTPStatusError`; or an
`httpx.TimeoutException` raised by the request itself. -/
inductive HFResponse where
  | ok (content : Nat)
  | modelLoading (estimated_time : Nat)
  | rateLimited
  | httpError (code : Nat)
  | timeout
deriving DecidableEq, Repr

/-- How the `_generate_with_text2img` loop resolves: a decoded image's
content, `None` after the `for` loop exhausts its 3 iterations, or an
exception propagating out of the loop. -/
inductive T2IOutcome where
  | image (content : Nat)
  | noneRes
  | raised (e : PyErr)

/-- Observable behaviour of one `_generate_with_text2img` call: its
resolution, the number of HTTP requests issued, the progress reports made
inside it, and the sleeps performed (in seconds). -/
structure T2IRun where
  outcome : T2IOutcome
  requests : Nat
  reports : List Int
  sleeps : List Nat

/-- The `for attempt in range(max_retries)` loop of
`_generate_with_text2img` (lines 135-167), as a recursion on the number of
iterations left. `attempt` is the current index, `responses` gives the
outcome of each attempt's HTTP exchange. Branches: 503 → report 50, sleep
`min(estimated_time, 30)`, continue; 200 → report 80, return the image;
429 → sleep 10, continue; other status → `raise_for_status` raises,
uncaught; timeout → if another iteration remains, sleep 5 and continue,
else re-raise. Exhausting the loop returns `None`. -/
def t2i_go (responses : Nat → HFResponse) (cb : Bool) (attempt : Nat) :
    Nat → T2IRun
  | 0 => { outcome := .noneRes, requests := 0, reports := [], sleeps := [] }
  | remaining + 1 =>
      match responses attempt with
      | .modelLoading w =>
          let rest := t2i_go responses cb (attempt + 1) remaining
          { outcome := rest.outcome
            requests := rest.requests + 1
            reports := report_progress 50 cb ++ rest.reports
            sleeps := min w 30 :: rest.sleeps }
      | .ok content =>
          { outcome := .image content, requests := 1
            reports := report_progress 80 cb, sleeps := [] }
      | .rateLimited =>
          let rest := t2i_go responses cb (attempt + 1) remaining
          { outcome := rest.outcome
            requests := rest.requests + 1
            reports := rest.reports
            sleeps := 10 :: rest.sleeps }
      | .httpError code =>
          { outcome := .raised (.httpStatusError code), requests := 1
            reports := [], sleeps := [] }
      | .timeout =>
          match remaining with
          | 0 =>
              { outcome := .raised .timeoutError, requests := 1
                reports := [], sleeps := [] }
          | r + 1 =>
              let rest := t2i_go responses cb (attempt + 1) (r + 1)
              { outcome := rest.outcome
                requests := rest.requests + 1
                reports := rest.reports
                sleeps := 5 :: rest.sleeps }

/-- Model of `HuggingFaceGenerator._generate_with_text2img`: reports 40, then runs
the retry loop with `max_retries = 3` starting at attempt 0. -/
def generate_with_text2img (responses : Nat → HFResponse) (cb : Bool) : T2IRun :=
  let run := t2i_go responses cb 0 3
  { run with reports := report_progress 40 cb ++ run.reports }

/-- Model of `HuggingFaceGenerator._build_prompt`. -/
def hf_build_prompt (style : StylePreset) : String :=
  "professional portrait photo of a person, " ++ style.prompt ++
    ", photorealistic, high quality, detailed, studio lighting, fashion photography, 8k uhd"

/-- The resize target of `huggingface.py` lines 62-65: `ratio = 768 /
max(w, h)` (float, modelled as an exact rational) and `int(dim * ratio)`
per dimension. -/
def hfNewSize (w h : Nat) : Nat × Nat :=
  let ratio : ℚ := 768 / (max w h : ℚ)
  ((((w : ℚ) * ratio).floor).toNat, (((h : ℚ) * ratio).floor).toNat)

/-- External operations used by `HuggingFaceGenerator`: PIL decode /
convert / resize / size / PNG encode, the HTTP exchange of each attempt,
and decoding of a successful response body. -/
structure HFEnv where
  decode : Nat → Image
  convert : Image → String → Image
  size : Image → Nat × Nat
  resize : Image → Nat × Nat → Image
  encodePNG : Image → Nat
  responses : Nat → HFResponse
  decodeResponse : Nat → Image

/-- Body of the `try` block of `HuggingFaceGenerator.generate`: validate,
prepare the image (convert to RGB when not already, downscale when the
larger dimension exceeds 768), report 10/20/30, run
`_generate_with_text2img`; a `None` result raises
`GenerationError("Failed to generate image from Hugging Face API")`;
otherwise report 90, save, report 100. -/
def hf_generate_inner (env : HFEnv) (fs : FS) (input_path : String)
    (style : StylePreset) (cb : Bool) : Except PyErr (Nat × List Int) :=
  match validate_input fs input_path with
  | .error e => .error e
  | .ok _ =>
      let t1 := report_progress 10 cb
      let img0 := env.decode (fs.content input_path)
      let img1 := if img0.mode ≠ "RGB" then env.convert img0 "RGB" else img0
      let wh := env.size img1
      let img2 :=
        if 768 < max wh.1 wh.2 then env.resize img1 (hfNewSize wh.1 wh.2) else img1
      let _img_bytes := env.encodePNG img2
      let t2 := report_progress 20 cb
      let _prompt := hf_build_prompt style
      let t3 := report_progress 30 cb
      let run := generate_with_text2img env.responses cb
      match run.outcome with
      | .raised e => .error e
      | .noneRes =>
          .error (.generationError "Failed to generate image from Hugging Face API" none)
      | .image content =>
          let t4 := report_progress 90 cb
          let out := env.encodePNG (env.decodeResponse content)
          let t5 := report_progress 100 cb
          .ok (out, t1 ++ t2 ++ t3 ++ run.reports ++ t4 ++ t5)

/-- Model of `HuggingFaceGenerator.generate`: like the stub, the whole body runs
inside `try ... except Exception as e: raise GenerationError(
f"HuggingFace generation failed: {str(e)}", cause=e)`, so every exception
out of the body — validation errors, loop exceptions, and the inner
`GenerationError` itself — is re-raised wrapped. -/
def hf_generate (env : HFEnv) (fs : FS) (input_path : String)
    (style : StylePreset) (cb : Bool) : Except PyErr (Nat × List Int) :=
  match hf_generate_inner env fs input_path style cb with
  | .ok r => .ok r
  | .error e =>
      .error (.generationError ("HuggingFace generation failed: " ++ e.str) (some e))

/-! ## Real generator dimension normalization (`app/generators/real.py`) -/

/-- Value of `RealGenerator.MAX_DIMENSION`. -/
def MAX_DIMENSION : Nat := 640

/-- The dimension pipeline of `RealGenerator.generate` lines 61-72:
downscale when either dimension exceeds `MAX_DIMENSION` with
`ratio = min(MAX_DIMENSION / width, MAX_DIMENSION / height)` (floats
modelled as exact rationals, `int(...)` as floor of a non-negative value),
then round each dimension down to a multiple of 8, then enforce the 512
floor. Returns the `(width, height)` submitted to the remote service. -/
def normalizeDims (w h : Nat) : Nat × Nat :=
  let wh :=
    if MAX_DIMENSION < w ∨ MAX_DIMENSION < h then
      let ratio : ℚ := min ((MAX_DIMENSION : ℚ) / (w : ℚ)) ((MAX_DIMENSION : ℚ) / (h : ℚ))
      ((((w : ℚ) * ratio).floor).toNat, (((h : ℚ) * ratio).floor).toNat)
    else (w, h)
  let w2 := (wh.1 / 8) * 8
  let h2 := (wh.2 / 8) * 8
  (max 512 w2, max 512 h2)

/-! ## Concrete fixtures used by witnesses and counterexamples -/

/-- A concrete Pending job record. -/
def pendingRecord : JobMetadata :=
  { job_id := "job-1", status := .pending, progress := 0,
    style_id := "classic-tuxedo", input_filename := "job-1-input.png",
    output_filename := none, error := none, created_at := 0, updated_at := 0 }

/-- A concrete terminal (Completed) job record. -/
def doneRecord : JobMetadata :=
  { job_id := "job-1", status := .completed, progress := 100,
    style_id := "classic-tuxedo", input_filename := "job-1-input.png",
    output_filename := some "job-1-output.png", error := none,
    created_at := 0, updated_at := 3 }

/-- An empty job record store. -/
def emptyStore : JobStore := fun _ => none

/-- A store already holding `doneRecord` under its `job_id`. -/
def seededStore : JobStore :=
  fun id => if id = "job-1" then some doneRecord else none

/-! ## Helper lemmas about the worker's progress writes -/

/-- The record state right after the worker's `status=PROCESSING,
progress=5` write at instant 1. -/
def startProcessing (md : JobMetadata) : JobMetadata :=
  { md with status := .processing, progress := 5, updated_at := 1 }

/-- A progress-only `update_job` write keeps the record present and
changes only `progress` and `updated_at`; iterating it over a list of
reported values therefore preserves every other field and leaves
`progress` at the last reported value. -/
lemma runProgress_fields (ups : List Int) : ∀ (md : JobMetadata) (t : Nat),
    ∃ md' t', runProgress (some md) t ups = (some md', t') ∧
      md'.job_id = md.job_id ∧ md'.status = md.status ∧
      md'.progress = lastD ups md.progress ∧
      md'.style_id = md.style_id ∧
      md'.input_filename = md.input_filename ∧
      md'.output_filename = md.output_filename ∧
      md'.error = md.error := by
  induction ups with
  | nil =>
      intro md t
      exact ⟨md, t, rfl, rfl, rfl, rfl, rfl, rfl, rfl, rfl⟩
  | cons p rest ih =>
      intro md t
      obtain ⟨md', t', h, h1, h2, h3, h4, h5, h6, h7⟩ :=
        ih { md with progress := p, updated_at := t } (t + 1)
      exact ⟨md', t', h, h1, h2, h3, h4, h5, h6, h7⟩

/-- Statuses along the progress-write trace: every intermediate state
keeps the status the record had when processing started. -/
lemma runProgressTrace_status (ups : List Int) : ∀ (md : JobMetadata) (t : Nat),
    (runProgressTrace (some md) t ups).map (Option.map JobMetadata.status) =
      List.replicate ups.length (some md.status) := by
  induction ups with
  | nil => intro md t; rfl
  | cons p rest ih =>
      intro md t
      have := ih { md with progress := p, updated_at := t } (t + 1)
      simpa [runProgressTrace, update_job, List.replicate_succ] using this

/-! ## C1 -/

/-- C1 (counterexample): a Completed — hence terminal — record is mutated
by a re-delivered `process_image` for the same job id: the worker first
rewrites it to Processing with progress 5, and a failing generator run
then finalizes it as Failed, so the terminal record's fields do change. -/
theorem update_terminal_record_mutates :
    doneRecord.status = .completed ∧
    process_image (some doneRecord) (.genError [] "boom") =
      some { doneRecord with
        status := .failed
        progress := 5
        error := some "boom"
        updated_at := 2 } := by
  exact ⟨rfl, rfl⟩

/-- C1 (amended): within a single `process_image` execution on an existing
record, the status writes do follow the documented discipline — the first
write sets Processing, every progress write keeps Processing, and the
final write is the terminal status (Completed on success, Failed on any
exception). The terminality protection of the original claim does not
hold: `update_job` applies updates unconditionally with no terminal-state
check (see the counterexample), and a freshly created record starts
Pending. -/
theorem processImage_status_discipline (md : JobMetadata) (outcome : GenOutcome) :
    (process_image_trace (some md) outcome).map (Option.map JobMetadata.status) =
      List.replicate (outcome.ups.length + 1) (some JobStatus.processing) ++
        [some outcome.finalStatus] := by
  have hsp : (startProcessing md).status = JobStatus.processing := rfl
  have htr := runProgressTrace_status outcome.ups (startProcessing md) 2
  have hfinal : (process_image (some md) outcome).map JobMetadata.status =
      some outcome.finalStatus := by
    cases outcome with
    | success ups =>
        obtain ⟨md', t', hrun, -, -, -, -, -, -, -⟩ :=
          runProgress_fields ups (startProcessing md) 2
        have heq : process_image (some md) (.success ups) =
            update_job (runProgress (some (startProcessing md)) 2 ups).1
              (some .completed) (some 100) (some (md.job_id ++ "-output.png")) none
              (runProgress (some (startProcessing md)) 2 ups).2 := rfl
        rw [heq, hrun]
        rfl
    | genError ups msg =>
        obtain ⟨md', t', hrun, -, -, -, -, -, -, -⟩ :=
          runProgress_fields ups (startProcessing md) 2
        have heq : process_image (some md) (.genError ups msg) =
            update_job (runProgress (some (startProcessing md)) 2 ups).1
              (some .failed) none none (some msg)
              (runProgress (some (startProcessing md)) 2 ups).2 := rfl
        rw [heq, hrun]
        rfl
    | otherError ups msg =>
        obtain ⟨md', t', hrun, -, -, -, -, -, -, -⟩ :=
          runProgress_fields ups (startProcessing md) 2
        have heq : process_image (some md) (.otherError ups msg) =
            update_job (runProgress (some (startProcessing md)) 2 ups).1
              (some .failed) none none (some ("Processing failed: " ++ msg))
              (runProgress (some (startProcessing md)) 2 ups).2 := rfl
        rw [heq, hrun]
        rfl
  have hm1 : process_image_trace (some md) outcome =
      some (startProcessing md) ::
        (runProgressTrace (some (startProcessing md)) 2 outcome.ups ++
          [process_image (some md) outcome]) := rfl
  rw [hm1]
  simp only [List.map_cons, List.map_append, List.map_singleton, Option.map_some',
    htr, hsp, List.replicate_succ, hfinal]
  rfl

/-! ## C2 -/

/-- C2: for an existing record, a successful generator run is finalized
as Completed with progress 100 and the output filename
`f"{job_id}-output.png"`; a `GenerationError` (with its non-empty message)
or any other exception is finalized as Failed with a non-empty error
string and with progress exactly the last value reported before the
failure (5 from the Processing transition when nothing was reported) —
not forced to 0 or 100. -/
theorem processImage_finalizes (md : JobMetadata) (ups : List Int) (msg : String)
    (hmsg : msg ≠ "") :
    (∃ md', process_image (some md) (.success ups) = some md' ∧
      md'.status = .completed ∧ md'.progress = 100 ∧
      md'.output_filename = some (md.job_id ++ "-output.png")) ∧
    (∃ md', process_image (some md) (.genError ups msg) = some md' ∧
      md'.status = .failed ∧ md'.error = some msg ∧ msg ≠ "" ∧
      md'.progress = lastD ups 5) ∧
    (∃ md', process_image (some md) (.otherError ups msg) = some md' ∧
      md'.status = .failed ∧ md'.error = some ("Processing failed: " ++ msg) ∧
      ("Processing failed: " ++ msg) ≠ "" ∧
      md'.progress = lastD ups 5) := by
  obtain ⟨md', t', hrun, _, _, hpr, _, _, _, _⟩ :=
    runProgress_fields ups (startProcessing md) 2
  have hpre : ("Processing failed: " ++ msg) ≠ "" := by
    intro h
    have h3 : "Processing failed: ".data ++ msg.data = [] := congrArg String.data h
    have h4 := List.append_eq_nil.mp h3
    exact absurd h4.1 (by decide)
  refine ⟨?_, ?_, ?_⟩
  · have heq : process_image (some md) (.success ups) =
        update_job (runProgress (some (startProcessing md)) 2 ups).1
          (some .completed) (some 100) (some (md.job_id ++ "-output.png")) none
          (runProgress (some (startProcessing md)) 2 ups).2 := rfl
    rw [heq, hrun]
    exact ⟨_, rfl, rfl, rfl, rfl⟩
  · have heq : process_image (some md) (.genError ups msg) =
        update_job (runProgress (some (startProcessing md)) 2 ups).1
          (some .failed) none none (some msg)
          (runProgress (some (startProcessing md)) 2 ups).2 := rfl
    rw [heq, hrun]
    exact ⟨_, rfl, rfl, rfl, hmsg, hpr⟩
  · have heq : process_image (some md) (.otherError ups msg) =
        update_job (runProgress (some (startProcessing md)) 2 ups).1
          (some .failed) none none (some ("Processing failed: " ++ msg))
          (runProgress (some (startProcessing md)) 2 ups).2 := rfl
    rw [heq, hrun]
    exact ⟨_, rfl, rfl, rfl, hpre, hpr⟩

/-- C2 (witness): the failure branch evaluated on a concrete record, one
reported progress value 42, and message `"boom"`. -/
theorem processImage_finalizes_witness :
    ("boom" : String) ≠ "" ∧
    (∃ md', process_image (some pendingRecord) (.genError [42] "boom") = some md' ∧
      md'.status = .failed ∧ md'.error = some "boom" ∧ ("boom" : String) ≠ "" ∧
      md'.progress = lastD [42] 5) :=
  ⟨by decide, (processImage_finalizes pendingRecord [42] "boom" (by decide)).2.1⟩

/-! ## C6 -/

/-- C6 (counterexample): `create_job` called with a `job_id` that already
has a record does not fail — it silently replaces the existing Completed
record with a fresh Pending one. -/
theorem createJob_overwrites_counterexample :
    seededStore "job-1" = some doneRecord ∧
    doneRecord.status = .completed ∧
    create_job seededStore "job-1" "streetwear" "other.png" 9 "job-1" =
      some { job_id := "job-1", status := .pending, progress := 0,
             style_id := "streetwear", input_filename := "other.png",
             output_filename := none, error := none,
             created_at := 9, updated_at := 9 } := by
  exact ⟨rfl, rfl, rfl⟩

/-- C6 (amended): `create_job` performs no existence check: for every
store and every `job_id` — whether or not a record already exists — it
maps `job_id` to the fresh Pending record built from its arguments and
leaves every other key untouched. -/
theorem createJob_unconditional (store : JobStore)
    (job_id style_id input_filename : String) (now : Nat) :
    create_job store job_id style_id input_filename now job_id =
      some { job_id := job_id, status := .pending, progress := 0,
             style_id := style_id, input_filename := input_filename,
             output_filename := none, error := none,
             created_at := now, updated_at := now } ∧
    ∀ id, id ≠ job_id → create_job store job_id style_id input_filename now id = store id := by
  constructor
  · simp [create_job, save_metadata]
  · intro id hid
    simp [create_job, save_metadata, hid]

/-- C6 (witness): the amended behaviour evaluated on the seeded store. -/
theorem createJob_unconditional_witness :
    create_job seededStore "job-1" "streetwear" "other.png" 9 "job-1" =
      some { job_id := "job-1", status := .pending, progress := 0,
             style_id := "streetwear", input_filename := "other.png",
             output_filename := none, error := none,
             created_at := 9, updated_at := 9 } ∧
    (("job-2" : String) ≠ "job-1" ∧
      create_job seededStore "job-1" "streetwear" "other.png" 9 "job-2" =
        seededStore "job-2") :=
  ⟨(createJob_unconditional seededStore "job-1" "streetwear" "other.png" 9).1,
   by decide,
   (createJob_unconditional seededStore "job-1" "streetwear" "other.png" 9).2
     "job-2" (by decide)⟩

/-! ## Generator fixtures -/

/-- A concrete deterministic instance of the PIL operations, for the
closed witnesses and counterexamples. -/
def testPIL : PILEnv :=
  { decode := fun n => { mode := "RGB", data := n }
    convert := fun i m => { i with mode := m }
    blend := fun i c o => { i with data := i.data * 31 + c.1 + c.2.1 + c.2.2 + o }
    contrastEnhance := fun i c => { i with data := i.data * 37 + c }
    colorEnhance := fun i s => { i with data := i.data * 41 + s }
    addLabel := fun i nm col => { i with data := i.data * 43 + nm.length + col.1 }
    encodePNG := fun i => i.data * 2 }

/-- A file system where every path is a readable regular file. -/
def fsAll : FS :=
  { fileExists := fun _ => true, isFile := fun _ => true, content := fun _ => 7 }

/-- A file system where no path exists. -/
def fsMissing : FS :=
  { fileExists := fun _ => false, isFile := fun _ => false, content := fun _ => 0 }

/-- A file system where every path exists but is not a regular file. -/
def fsDir : FS :=
  { fileExists := fun _ => true, isFile := fun _ => false, content := fun _ => 0 }

/-- A registered style (its id is a key of `STYLE_EFFECTS`). -/
def testStyle : StylePreset :=
  { id := "classic-tuxedo", name := "Classic Tuxedo",
    description := "Elegant spy archetype in formal evening wear",
    prompt := "wearing an elegant black tuxedo with bow tie, sophisticated spy aesthetic",
    thumbnail := none }

/-- A style whose id is not a key of `STYLE_EFFECTS`. -/
def unknownStyle : StylePreset :=
  { id := "vaporwave", name := "Vaporwave",
    description := "Retro-futuristic pastel aesthetic",
    prompt := "wearing a vaporwave outfit", thumbnail := none }

/-! ## C3 -/

/-- C3 (counterexample): for a missing input file the stub generator does
not fail with the raw validation error — the `FileNotFoundError` raised by
`validate_input` is wrapped into a `GenerationError` by the generator's
blanket `except` clause. -/
theorem stub_missing_input_wrapped_counterexample :
    stub_generate testPIL fsMissing "in.png" testStyle false 0 false =
      .error (.generationError
        ("Stub generation failed: " ++ ("Input file not found: " ++ "in.png"))
        (some (.fileNotFound ("Input file not found: " ++ "in.png")))) := by
  rfl

/-- C3 (amended): for every input path that does not exist (or exists but
is not a regular file), `validate_input` does raise the precondition error
(`FileNotFoundError` / `ValueError`), but both embedded generator variants
re-raise it wrapped in a `GenerationError` whose cause is the validation
error, because `validate_input` is called inside the generators'
catch-all `try` blocks. -/
theorem generate_wraps_validation_error (env : PILEnv) (henv : HFEnv) (fs : FS)
    (p : String) (style : StylePreset) (sd : Bool) (ds : ℚ) (cb : Bool) :
    (fs.fileExists p = false →
      validate_input fs p = .error (.fileNotFound ("Input file not found: " ++ p)) ∧
      stub_generate env fs p style sd ds cb =
        .error (.generationError
          ("Stub generation failed: " ++ ("Input file not found: " ++ p))
          (some (.fileNotFound ("Input file not found: " ++ p)))) ∧
      hf_generate henv fs p style cb =
        .error (.generationError
          ("HuggingFace generation failed: " ++ ("Input file not found: " ++ p))
          (some (.fileNotFound ("Input file not found: " ++ p))))) ∧
    (fs.fileExists p = true → fs.isFile p = false →
      validate_input fs p = .error (.valueError ("Input path is not a file: " ++ p)) ∧
      stub_generate env fs p style sd ds cb =
        .error (.generationError
          ("Stub generation failed: " ++ ("Input path is not a file: " ++ p))
          (some (.valueError ("Input path is not a file: " ++ p)))) ∧
      hf_generate henv fs p style cb =
        .error (.generationError
          ("HuggingFace generation failed: " ++ ("Input path is not a file: " ++ p))
          (some (.valueError ("Input path is not a file: " ++ p))))) := by
  constructor
  · intro hmiss
    refine ⟨?_, ?_, ?_⟩
    · simp [validate_input, hmiss]
    · simp [stub_generate, stub_generate_inner, validate_input, hmiss, PyErr.str]
    · simp [hf_generate, hf_generate_inner, validate_input, hmiss, PyErr.str]
  · intro hex hnf
    refine ⟨?_, ?_, ?_⟩
    · simp [validate_input, hex, hnf]
    · simp [stub_generate, stub_generate_inner, validate_input, hex, hnf, PyErr.str]
    · simp [hf_generate, hf_generate_inner, validate_input, hex, hnf, PyErr.str]

/-- A concrete HuggingFace environment whose requests all succeed. -/
def testHFEnv : HFEnv :=
  { decode := fun n => { mode := "RGB", data := n }
    convert := fun i m => { i with mode := m }
    size := fun _ => (512, 512)
    resize := fun i _ => i
    encodePNG := fun i => i.data
    responses := fun _ => .ok 5
    decodeResponse := fun n => { mode := "RGB", data := n } }

/-- A HuggingFace environment answering the model-loading 503 on every
attempt. -/
def hfLoadingEnv : HFEnv :=
  { testHFEnv with responses := fun _ => .modelLoading 20 }

/-- A HuggingFace environment whose requests all time out. -/
def hfTimeoutEnv : HFEnv :=
  { testHFEnv with responses := fun _ => .timeout }

/-- A HuggingFace environment answering an HTTP 500 on every attempt. -/
def hf500Env : HFEnv :=
  { testHFEnv with responses := fun _ => .httpError 500 }

/-- C3 (witness): the amended wrapping behaviour evaluated for a missing
file and for a directory path. -/
theorem generate_wraps_validation_error_witness :
    (fsMissing.fileExists "in.png" = false ∧
      stub_generate testPIL fsMissing "in.png" unknownStyle true 3 true =
        .error (.generationError
          ("Stub generation failed: " ++ ("Input file not found: " ++ "in.png"))
          (some (.fileNotFound ("Input file not found: " ++ "in.png"))))) ∧
    (fsDir.fileExists "in.png" = true ∧ fsDir.isFile "in.png" = false ∧
      hf_generate testHFEnv fsDir "in.png" unknownStyle true =
        .error (.generationError
          ("HuggingFace generation failed: " ++ ("Input path is not a file: " ++ "in.png"))
          (some (.valueError ("Input path is not a file: " ++ "in.png"))))) :=
  ⟨⟨rfl, ((generate_wraps_validation_error testPIL testHFEnv fsMissing "in.png"
      unknownStyle true 3 true).1 rfl).2.1⟩,
   ⟨rfl, rfl, ((generate_wraps_validation_error testPIL testHFEnv fsDir "in.png"
      unknownStyle true 3 true).2 rfl rfl).2.2⟩⟩

/-! ## C9 -/

/-- Modelled from the spec: the deterministic variant's output as a pure
function of the input image bytes and the style alone — the composition of
the stub pipeline with no dependence on the delay configuration or the
progress callback. Compared against `stub_generate` in the C9 theorem. -/
def stubOutputSpec (env : PILEnv) (content : Nat) (style : StylePreset) : Nat :=
  let effects := styleEffectsGet style.id
  let img0 := env.decode content
  let img1 :=
    if img0.mode = "RGBA" ∨ img0.mode = "P" then env.convert img0 "RGB" else img0
  let img2 := env.blend img1 effects.overlay_color effects.overlay_opacity
  let img3 :=
    if effects.contrast ≠ 100 then env.contrastEnhance img2 effects.contrast else img2
  let img4 :=
    if effects.saturation ≠ 100 then env.colorEnhance img3 effects.saturation else img3
  let img5 := env.addLabel img4 style.name effects.label_color
  env.encodePNG img5

/-- C9: with `simulate_delay` disabled, `StubGenerator.generate` on a
valid input succeeds and its output bytes are exactly
`stubOutputSpec env (fs.content p) style` — a pure function of the input
file's bytes and the style, independent of `delay_seconds` and of whether
a progress callback is supplied. Hence any two invocations on the same
input image and style produce byte-for-byte identical output. -/
theorem stub_deterministic (env : PILEnv) (fs : FS) (p : String)
    (style : StylePreset) (ds : ℚ) (cb : Bool)
    (hex : fs.fileExists p = true) (hfi : fs.isFile p = true) :
    ∃ r, stub_generate env fs p style false ds cb = .ok r ∧
      r.output = stubOutputSpec env (fs.content p) style := by
  have hv : validate_input fs p = .ok () := by
    simp [validate_input, hex, hfi]
  have hinner : stub_generate_inner env fs p style false ds cb =
      .ok { output := stubOutputSpec env (fs.content p) style
            reports :=
              report_progress 10 cb ++ report_progress 20 cb ++ [] ++
                report_progress 75 cb ++ report_progress 85 cb ++
                report_progress 95 cb ++ report_progress 100 cb
            sleeps := [] } := by
    simp only [stub_generate_inner, hv, stubOutputSpec]
    rfl
  simp only [stub_generate, hinner]
  exact ⟨_, rfl, rfl⟩

/-- C9 (witness): two concrete invocations with different delay settings
and callback flags produce the same output bytes. -/
theorem stub_deterministic_witness :
    fsAll.fileExists "a.png" = true ∧
    (∃ r, stub_generate testPIL fsAll "a.png" testStyle false 0 false = .ok r ∧
      r.output = stubOutputSpec testPIL (fsAll.content "a.png") testStyle) ∧
    (∃ r, stub_generate testPIL fsAll "a.png" testStyle false 9 true = .ok r ∧
      r.output = stubOutputSpec testPIL (fsAll.content "a.png") testStyle) :=
  ⟨rfl,
   stub_deterministic testPIL fsAll "a.png" testStyle 0 false rfl rfl,
   stub_deterministic testPIL fsAll "a.png" testStyle 9 true rfl rfl⟩

/-! ## C10 -/

/-- C10: an unrecognized `style.id` silently falls back to
`DEFAULT_EFFECT` (the `dict.get` default), and `StubGenerator.generate`
still succeeds on a valid input for every style — the style alone never
causes a failure. -/
theorem stub_unknown_style_falls_back (env : PILEnv) (fs : FS) (p : String)
    (style : StylePreset) (sd : Bool) (ds : ℚ) (cb : Bool)
    (hex : fs.fileExists p = true) (hfi : fs.isFile p = true)
    (hunknown : STYLE_EFFECTS.lookup style.id = none) :
    styleEffectsGet style.id = DEFAULT_EFFECT ∧
    ∃ r, stub_generate env fs p style sd ds cb = .ok r := by
  constructor
  · simp [styleEffectsGet, hunknown]
  · have hv : validate_input fs p = .ok () := by
      simp [validate_input, hex, hfi]
    refine ⟨?_, ?_⟩
    · exact { output := stubOutputSpec env (fs.content p) style
              reports :=
                report_progress 10 cb ++ report_progress 20 cb ++
                  (if sd then delaySteps cb else []) ++
                  report_progress 75 cb ++ report_progress 85 cb ++
                  report_progress 95 cb ++ report_progress 100 cb
              sleeps := if sd then List.replicate 5 (ds / 5) else [] }
    · simp only [stub_generate, stub_generate_inner, hv, stubOutputSpec]

/-- C10 (witness): the fallback and success evaluated on a style id that
is not in `STYLE_EFFECTS`. -/
theorem stub_unknown_style_falls_back_witness :
    STYLE_EFFECTS.lookup unknownStyle.id = none ∧
    styleEffectsGet unknownStyle.id = DEFAULT_EFFECT ∧
    (∃ r, stub_generate testPIL fsAll "a.png" unknownStyle true 3 true = .ok r) :=
  ⟨by decide,
   (stub_unknown_style_falls_back testPIL fsAll "a.png" unknownStyle true 3 true
      rfl rfl (by decide)).1,
   (stub_unknown_style_falls_back testPIL fsAll "a.png" unknownStyle true 3 true
      rfl rfl (by decide)).2⟩

/-! ## C8 -/

/-- Any value delivered by `report_progress` lies in [0, 100]. -/
lemma report_progress_mem_bounds (p : Int) (cb : Bool) (v : Int)
    (hv : v ∈ report_progress p cb) : 0 ≤ v ∧ v ≤ 100 := by
  cases cb with
  | false => simp [report_progress] at hv
  | true =>
      simp [report_progress] at hv
      subst hv
      exact ⟨le_min (le_max_right p 0) (by norm_num), min_le_right _ _⟩

/-- Values of the simulated-delay loop lie in [0, 100]. -/
lemma delaySteps_mem_bounds (cb : Bool) (v : Int) (hv : v ∈ delaySteps cb) :
    0 ≤ v ∧ v ≤ 100 := by
  simp only [delaySteps, List.mem_flatten, List.mem_map] at hv
  obtain ⟨l, ⟨i, -, rfl⟩, hvl⟩ := hv
  exact report_progress_mem_bounds _ cb v hvl

/-- C8: `report_progress` invokes the callback (when one is supplied)
exactly once with the clamped value `min(max(p, 0), 100)`, makes no call
otherwise, every delivered value lies in [0, 100], and consequently every
progress value in a stub generator run's report trace lies in [0, 100]. -/
theorem report_progress_clamps :
    (∀ p : Int, report_progress p true = [min (max p 0) 100]) ∧
    (∀ p : Int, report_progress p false = []) ∧
    (∀ (p : Int) (cb : Bool) (v : Int),
      v ∈ report_progress p cb → 0 ≤ v ∧ v ≤ 100) ∧
    (∀ (env : PILEnv) (fs : FS) (p : String) (style : StylePreset) (sd : Bool)
        (ds : ℚ) (cb : Bool) (r : StubResult),
      stub_generate env fs p style sd ds cb = .ok r →
      ∀ v ∈ r.reports, 0 ≤ v ∧ v ≤ 100) := by
  refine ⟨fun p => rfl, fun p => rfl, report_progress_mem_bounds, ?_⟩
  intro env fs p style sd ds cb r h v hv
  cases hval : validate_input fs p with
  | error e =>
      have hsg : stub_generate env fs p style sd ds cb =
          .error (.generationError ("Stub generation failed: " ++ e.str) (some e)) := by
        simp only [stub_generate, stub_generate_inner, hval]
      rw [hsg] at h
      cases h
  | ok u =>
      cases u
      have hr : r =
          { output := stubOutputSpec env (fs.content p) style
            reports :=
              report_progress 10 cb ++ report_progress 20 cb ++
                (if sd then delaySteps cb else []) ++
                report_progress 75 cb ++ report_progress 85 cb ++
                report_progress 95 cb ++ report_progress 100 cb
            sleeps := if sd then List.replicate 5 (ds / 5) else [] } := by
        have h2 : stub_generate env fs p style sd ds cb =
            .ok { output := stubOutputSpec env (fs.content p) style
                  reports :=
                    report_progress 10 cb ++ report_progress 20 cb ++
                      (if sd then delaySteps cb else []) ++
                      report_progress 75 cb ++ report_progress 85 cb ++
                      report_progress 95 cb ++ report_progress 100 cb
                  sleeps := if sd then List.replicate 5 (ds / 5) else [] } := by
          simp only [stub_generate, stub_generate_inner, hval, stubOutputSpec]
        rw [h2] at h
        exact (Except.ok.inj h).symm
      subst hr
      simp only [List.mem_append] at hv
      rcases hv with ((((((h1 | h2) | h3) | h4) | h5) | h6) | h7)
      · exact report_progress_mem_bounds _ _ _ h1
      · exact report_progress_mem_bounds _ _ _ h2
      · cases sd with
        | false => simp at h3
        | true => exact delaySteps_mem_bounds cb v (by simpa using h3)
      · exact report_progress_mem_bounds _ _ _ h4
      · exact report_progress_mem_bounds _ _ _ h5
      · exact report_progress_mem_bounds _ _ _ h6
      · exact report_progress_mem_bounds _ _ _ h7

/-- C8 (witness): the clamp evaluated on the out-of-range argument 150,
and the trace bound evaluated on a concrete stub run. -/
theorem report_progress_clamps_witness :
    ((100 : Int) ∈ report_progress 150 true ∧
      (0 ≤ (100 : Int) ∧ (100 : Int) ≤ 100)) ∧
    (stub_generate testPIL fsAll "a.png" testStyle false 0 true =
        .ok { output := stubOutputSpec testPIL (fsAll.content "a.png") testStyle
              reports := [10, 20, 75, 85, 95, 100], sleeps := [] } ∧
      (0 ≤ (75 : Int) ∧ (75 : Int) ≤ 100)) :=
  ⟨⟨by decide, report_progress_clamps.2.2.1 150 true 100 (by decide)⟩,
   ⟨by rfl,
    report_progress_clamps.2.2.2 testPIL fsAll "a.png" testStyle false 0 true
      { output := stubOutputSpec testPIL (fsAll.content "a.png") testStyle
        reports := [10, 20, 75, 85, 95, 100], sleeps := [] }
      (by rfl) 75 (by decide)⟩⟩

/-! ## C4 -/

/-- C4: when every attempt's HTTP exchange comes back as the 503
model-loading response, the retry loop issues exactly 3 requests, returns
`None`, and `HuggingFaceGenerator.generate` then fails with a
`GenerationError` (the inner "Failed to generate image from Hugging Face
API" error, re-wrapped by the catch-all clause). The loop is a
`for attempt in range(3)`, so a fourth request is impossible and the
function always terminates. -/
theorem hf_model_loading_three_attempts (env : HFEnv) (fs : FS) (p : String)
    (style : StylePreset) (cb : Bool)
    (hresp : ∀ i, i < 3 → ∃ w, env.responses i = .modelLoading w)
    (hex : fs.fileExists p = true) (hfi : fs.isFile p = true) :
    (generate_with_text2img env.responses cb).requests = 3 ∧
    (generate_with_text2img env.responses cb).outcome = T2IOutcome.noneRes ∧
    hf_generate env fs p style cb =
      .error (.generationError
        ("HuggingFace generation failed: " ++
          "Failed to generate image from Hugging Face API")
        (some (.generationError "Failed to generate image from Hugging Face API" none))) := by
  obtain ⟨w0, h0⟩ := hresp 0 (by norm_num)
  obtain ⟨w1, h1⟩ := hresp 1 (by norm_num)
  obtain ⟨w2, h2⟩ := hresp 2 (by norm_num)
  have hv : validate_input fs p = .ok () := by
    simp [validate_input, hex, hfi]
  refine ⟨?_, ?_, ?_⟩
  · simp [generate_with_text2img, t2i_go, h0, h1, h2]
  · simp [generate_with_text2img, t2i_go, h0, h1, h2]
  · have hrun : t2i_go env.responses cb 0 3 =
        { outcome := .noneRes, requests := 3
          reports := report_progress 50 cb ++ (report_progress 50 cb ++
            (report_progress 50 cb ++ []))
          sleeps := [min w0 30, min w1 30, min w2 30] } := by
      simp [t2i_go, h0, h1, h2]
    simp only [hf_generate, hf_generate_inner, hv, generate_with_text2img, hrun,
      PyErr.str]

/-- C4 (witness): the bound evaluated on a concrete environment answering
503 with a 20-second estimate on every attempt. -/
theorem hf_model_loading_three_attempts_witness :
    (∀ i, i < 3 → ∃ w, hfLoadingEnv.responses i = HFResponse.modelLoading w) ∧
    (generate_with_text2img hfLoadingEnv.responses false).requests = 3 ∧
    (generate_with_text2img hfLoadingEnv.responses false).outcome = T2IOutcome.noneRes ∧
    hf_generate hfLoadingEnv fsAll "a.png" testStyle false =
      .error (.generationError
        ("HuggingFace generation failed: " ++
          "Failed to generate image from Hugging Face API")
        (some (.generationError "Failed to generate image from Hugging Face API" none))) :=
  ⟨fun _ _ => ⟨20, rfl⟩,
   hf_model_loading_three_attempts hfLoadingEnv fsAll "a.png" testStyle false
     (fun _ _ => ⟨20, rfl⟩) rfl rfl⟩

/-! ## C5 -/

/-- C5 (counterexample): a persistent non-success, non-model-loading,
non-rate-limit error response (an HTTP 500) is not retried at all: the
loop issues exactly one request, the `raise_for_status` exception
propagates out of the loop on the first attempt, and `generate` wraps it
in a `GenerationError` — rather than retrying up to 3 attempts. -/
theorem hf_other_error_not_retried_counterexample :
    (generate_with_text2img hf500Env.responses false).requests = 1 ∧
    (generate_with_text2img hf500Env.responses false).outcome =
      T2IOutcome.raised (.httpStatusError 500) ∧
    hf_generate hf500Env fsAll "a.png" testStyle false =
      .error (.generationError
        ("HuggingFace generation failed: " ++ PyErr.str (.httpStatusError 500))
        (some (.httpStatusError 500))) := by
  exact ⟨rfl, rfl, rfl⟩

/-- C5 (amended): only `httpx.TimeoutException` is retried with the short
fixed 5-second delay: three consecutive timeouts make exactly 3 requests,
sleep 5 seconds twice, and re-raise the final timeout, which `generate`
wraps in a `GenerationError`. Every other client or transport error (the
`raise_for_status` branch) propagates on its first occurrence — exactly
one request, no retry, no delay — and is likewise wrapped in a
`GenerationError` by `generate`. -/
theorem hf_retry_policy (ra rb : Nat → HFResponse) (cb1 cb2 : Bool) (c : Nat)
    (env : HFEnv) (fs : FS) (p : String) (style : StylePreset)
    (hta : ∀ i, i < 3 → ra i = .timeout)
    (hrb : rb 0 = .httpError c)
    (henv : env.responses = ra)
    (hex : fs.fileExists p = true) (hfi : fs.isFile p = true) :
    ((generate_with_text2img ra cb1).requests = 3 ∧
      (generate_with_text2img ra cb1).outcome = T2IOutcome.raised .timeoutError ∧
      (generate_with_text2img ra cb1).sleeps = [5, 5] ∧
      hf_generate env fs p style cb1 =
        .error (.generationError
          ("HuggingFace generation failed: " ++ PyErr.str .timeoutError)
          (some .timeoutError))) ∧
    ((generate_with_text2img rb cb2).requests = 1 ∧
      (generate_with_text2img rb cb2).outcome =
        T2IOutcome.raised (.httpStatusError c) ∧
      (generate_with_text2img rb cb2).sleeps = []) := by
  have h0 := hta 0 (by norm_num)
  have h1 := hta 1 (by norm_num)
  have h2 := hta 2 (by norm_num)
  have hv : validate_input fs p = .ok () := by
    simp [validate_input, hex, hfi]
  have hrun : t2i_go ra cb1 0 3 =
      { outcome := T2IOutcome.raised .timeoutError, requests := 3
        reports := [], sleeps := [5, 5] } := by
    simp [t2i_go, h0, h1, h2]
  refine ⟨⟨?_, ?_, ?_, ?_⟩, ?_, ?_, ?_⟩
  · simp [generate_with_text2img, hrun]
  · simp [generate_with_text2img, hrun]
  · simp [generate_with_text2img, hrun]
  · subst henv
    simp only [hf_generate, hf_generate_inner, hv, generate_with_text2img, hrun,
      PyErr.str]
  · simp [generate_with_text2img, t2i_go, hrb]
  · simp [generate_with_text2img, t2i_go, hrb]
  · simp [generate_with_text2img, t2i_go, hrb]

/-- C5 (witness): the amended retry policy evaluated on a concrete
all-timeouts environment and a concrete first-attempt HTTP 500. -/
theorem hf_retry_policy_witness :
    ((generate_with_text2img hfTimeoutEnv.responses true).requests = 3 ∧
      (generate_with_text2img hfTimeoutEnv.responses true).outcome =
        T2IOutcome.raised .timeoutError ∧
      (generate_with_text2img hfTimeoutEnv.responses true).sleeps = [5, 5] ∧
      hf_generate hfTimeoutEnv fsAll "a.png" testStyle true =
        .error (.generationError
          ("HuggingFace generation failed: " ++ PyErr.str .timeoutError)
          (some .timeoutError))) ∧
    ((generate_with_text2img hf500Env.responses true).requests = 1 ∧
      (generate_with_text2img hf500Env.responses true).outcome =
        T2IOutcome.raised (.httpStatusError 500) ∧
      (generate_with_text2img hf500Env.responses true).sleeps = []) :=
  hf_retry_policy hfTimeoutEnv.responses hf500Env.responses true true 500
    hfTimeoutEnv fsAll "a.png" testStyle
    (fun _ _ => rfl) rfl rfl rfl rfl

/-! ## C7 -/

/-- Rounding down to a multiple of 8 and then applying the 512 floor
keeps a dimension that started at most 640 inside [512, 640] and
divisible by 8. -/
lemma dim_step_bounds (x : Nat) (hx : x ≤ 640) :
    8 ∣ max 512 (x / 8 * 8) ∧ 512 ≤ max 512 (x / 8 * 8) ∧
      max 512 (x / 8 * 8) ≤ 640 := by
  have hdvd : 8 ∣ max 512 (x / 8 * 8) := by
    rcases Nat.le_total 512 (x / 8 * 8) with hle | hle
    · rw [Nat.max_eq_right hle]
      exact dvd_mul_left 8 (x / 8)
    · rw [Nat.max_eq_left hle]
      norm_num
  have hfloor : 512 ≤ max 512 (x / 8 * 8) := Nat.le_max_left _ _
  have hceil : max 512 (x / 8 * 8) ≤ 640 := by
    have : x / 8 * 8 ≤ x := Nat.div_mul_le_self x 8
    exact Nat.max_le.mpr ⟨by norm_num, le_trans this hx⟩
  exact ⟨hdvd, hfloor, hceil⟩

/-- After the downscale branch both intermediate dimensions are at most
`MAX_DIMENSION`. -/
lemma scaled_dim_le (d w h : Nat) (hd : 1 ≤ d)
    (hmin : min ((MAX_DIMENSION : ℚ) / (w : ℚ)) ((MAX_DIMENSION : ℚ) / (h : ℚ)) ≤
      (MAX_DIMENSION : ℚ) / (d : ℚ)) :
    (((d : ℚ) * min ((MAX_DIMENSION : ℚ) / (w : ℚ))
        ((MAX_DIMENSION : ℚ) / (h : ℚ))).floor).toNat ≤ 640 := by
  have hd0 : (0 : ℚ) < (d : ℚ) := by exact_mod_cast hd
  have hmul : (d : ℚ) * min ((MAX_DIMENSION : ℚ) / (w : ℚ))
      ((MAX_DIMENSION : ℚ) / (h : ℚ)) ≤ (d : ℚ) * ((MAX_DIMENSION : ℚ) / (d : ℚ)) :=
    mul_le_mul_of_nonneg_left hmin (le_of_lt hd0)
  have hcancel : (d : ℚ) * ((MAX_DIMENSION : ℚ) / (d : ℚ)) = (MAX_DIMENSION : ℚ) := by
    field_simp
  have hle : (d : ℚ) * min ((MAX_DIMENSION : ℚ) / (w : ℚ))
      ((MAX_DIMENSION : ℚ) / (h : ℚ)) ≤ (640 : ℚ) := by
    rw [hcancel] at hmul
    simpa [MAX_DIMENSION] using hmul
  have hfloor : ((d : ℚ) * min ((MAX_DIMENSION : ℚ) / (w : ℚ))
      ((MAX_DIMENSION : ℚ) / (h : ℚ))).floor ≤ (640 : ℤ) := by
    have := Int.floor_le_floor hle
    simpa using this
  omega

/-- C7: for every input with both dimensions at least 1, the dimensions
`RealGenerator` submits to the remote service are each a multiple of 8,
at least the 512 floor, and at most `MAX_DIMENSION = 640`. -/
theorem normalizeDims_bounds (w h : Nat) (hw : 1 ≤ w) (hh : 1 ≤ h) :
    8 ∣ (normalizeDims w h).1 ∧ 8 ∣ (normalizeDims w h).2 ∧
    512 ≤ (normalizeDims w h).1 ∧ 512 ≤ (normalizeDims w h).2 ∧
    (normalizeDims w h).1 ≤ 640 ∧ (normalizeDims w h).2 ≤ 640 := by
  by_cases hc : MAX_DIMENSION < w ∨ MAX_DIMENSION < h
  · have hw640 : (((w : ℚ) * min ((MAX_DIMENSION : ℚ) / (w : ℚ))
        ((MAX_DIMENSION : ℚ) / (h : ℚ))).floor).toNat ≤ 640 :=
      scaled_dim_le w w h hw (min_le_left _ _)
    have hh640 : (((h : ℚ) * min ((MAX_DIMENSION : ℚ) / (w : ℚ))
        ((MAX_DIMENSION : ℚ) / (h : ℚ))).floor).toNat ≤ 640 :=
      scaled_dim_le h w h hh (min_le_right _ _)
    have hx := dim_step_bounds _ hw640
    have hy := dim_step_bounds _ hh640
    simp only [normalizeDims, if_pos hc]
    exact ⟨hx.1, hy.1, hx.2.1, hy.2.1, hx.2.2, hy.2.2⟩
  · have hc' := hc
    push_neg at hc'
    have hx := dim_step_bounds w hc'.1
    have hy := dim_step_bounds h hc'.2
    simp only [normalizeDims, if_neg hc]
    exact ⟨hx.1, hy.1, hx.2.1, hy.2.1, hx.2.2, hy.2.2⟩

/-- C7 (witness): the bounds evaluated on a 1000×750 input (normalized to
640×512). -/
theorem normalizeDims_bounds_witness :
    (1 ≤ 1000 ∧ 1 ≤ 750) ∧
    (8 ∣ (normalizeDims 1000 750).1 ∧ 8 ∣ (normalizeDims 1000 750).2 ∧
      512 ≤ (normalizeDims 1000 750).1 ∧ 512 ≤ (normalizeDims 1000 750).2 ∧
      (normalizeDims 1000 750).1 ≤ 640 ∧ (normalizeDims 1000 750).2 ≤ 640) :=
  ⟨by decide, normalizeDims_bounds 1000 750 (by decide) (by decide)⟩

end StyleForge
